import Mathlib

/-!
Verification of the primasynth voice kernel (per-voice DSP and modulation
kernel of a SoundFont 2 software synthesizer).

The definitions below are a shallow embedding of the C++ sources
`conversion.cpp`, `stereovalue.cpp`, `voice.cpp` and `modulator.h`.
C++ `double` values are modelled as real numbers; machine integers are
modelled as `Nat`/`Int` with explicit `% 2^32` / `% 2^64` reductions where
unsigned wrap-around matters; fallible operations (`std::vector::at`,
`std::array::at`) return `Option`.

Components of the repository whose implementation files are not available
(the fixed-point phase, the envelope generator, the LFO, the generator set
and the modulator internals) are modelled from the specification document;
each such definition carries a doc comment starting with
`Modelled from the spec:`.
-/

namespace Primasynth

/-! ## Conversion functions (`conversion.cpp`) -/

/-- Entry `i` of `centibelToRatioTable` (`conversion.cpp`, `initialize`):
`std::pow(10.0, i / -200.0)`.  The divisor is −200 (not the SoundFont
spec's −100), an intentional compatibility choice of the repository. -/
noncomputable def centibelToRatioTable (i : ℕ) : ℝ :=
  Real.rpow 10 ((i : ℝ) / (-200))

/-- `conv::centibelToRatio` (`conversion.cpp` lines 25–33).  The table has
1441 entries; `static_cast<std::size_t>(cb)` truncates, which for the
positive `cb` reaching that branch is the floor. -/
noncomputable def centibelToRatio (cb : ℝ) : ℝ :=
  if cb ≤ 0 then 1
  else if 1441 ≤ cb then 0
  else centibelToRatioTable ⌊cb⌋₊

/-- Entry `i` of `centToHeltzTable` (`conversion.cpp`, `initialize`):
`6.875 * std::exp2(i / 1200.0)`.  Access through `std::array::at` throws
when out of bounds, modelled by `Option`; the table has 1200 entries. -/
noncomputable def centToHeltzAt (i : ℕ) : Option ℝ :=
  if i < 1200 then some (6.875 * Real.rpow 2 ((i : ℝ) / 1200)) else none

/-- Offset variable of the `keyToHeltz` loop after `k` iterations:
`offset` is a `std::size_t` starting at 300 and decremented by 1200 each
iteration, so it wraps modulo `2^64`; its value is `300 - 1200*k (mod 2^64)`. -/
def keyToHeltzOffset (k : ℕ) : ℕ :=
  (300 + (2 ^ 64 - 1200) * k) % 2 ^ 64

/-- The `while` loop of `conv::keyToHeltz` (`conversion.cpp` lines 40–50),
parametrised by the iteration count `k`.  At iteration `k` the loop
variables are `th = 900 + 1200*k`, `offset = keyToHeltzOffset k` and
`r = 2^k`; the loop condition `th <= 14100` is `k < 12`.  The table index
`static_cast<std::size_t>(key * 100) + offset` is `std::size_t`
arithmetic, reduced modulo `2^64` (the cast truncates the nonnegative
`key * 100`, which is `Nat.floor`). -/
noncomputable def keyToHeltzLoop (key : ℝ) (k : ℕ) : Option ℝ :=
  if k < 12 then
    if key * 100 < 900 + 1200 * (k : ℝ) then
      (centToHeltzAt ((⌊key * 100⌋₊ + keyToHeltzOffset k) % 2 ^ 64)).map
        (fun c => (2 : ℝ) ^ k * c)
    else
      keyToHeltzLoop key (k + 1)
  else
    some 1
termination_by 12 - k

/-- `conv::keyToHeltz` (`conversion.cpp` lines 35–53).  `none` models the
(unreachable) out-of-range exception of the table access. -/
noncomputable def keyToHeltz (key : ℝ) : Option ℝ :=
  if key < 0 then some 1 else keyToHeltzLoop key 0

/-- Total version of `keyToHeltz` used inside the voice, where the C++ code
calls it as a plain `double` function.  In every branch the loop's table
index lies in `[0, 1200)` (for the branch at iteration `k`, the failed
tests of iterations `< k` bound `key * 100` from below), so `at` never
throws and the `getD` default is never used. -/
noncomputable def keyToHeltzD (key : ℝ) : ℝ :=
  (keyToHeltz key).getD 0

/-! ## StereoValue (`stereovalue.cpp`) -/

/-- Stereo amplitude pair. -/
structure StereoValue where
  left : ℝ
  right : ℝ

/-- `StereoValue::operator+(const StereoValue&)`. -/
def StereoValue.add (a b : StereoValue) : StereoValue :=
  ⟨a.left + b.left, a.right + b.right⟩

/-- `StereoValue::operator*(double)` (member: stereo times scalar). -/
def StereoValue.mulScalar (a : StereoValue) (b : ℝ) : StereoValue :=
  ⟨a.left * b, a.right * b⟩

/-- `StereoValue::operator*(const StereoValue&)` (pairwise). -/
def StereoValue.mul (a b : StereoValue) : StereoValue :=
  ⟨a.left * b.left, a.right * b.right⟩

/-- Free `operator*(double, const StereoValue&)` (scalar times stereo). -/
def scalarMulStereo (a : ℝ) (b : StereoValue) : StereoValue :=
  ⟨a * b.left, a * b.right⟩

/-! ## Panning (`voice.cpp` lines 5–14) -/

/-- The constant `f = 3.141592653589793 / 2000.0` of `calculatePannedVolume`
(the C++ source uses this double literal, not a symbolic π). -/
noncomputable def panF : ℝ := 3.141592653589793 / 2000

/-- `calculatePannedVolume` (`voice.cpp` lines 5–14). -/
noncomputable def calculatePannedVolume (pan : ℝ) : StereoValue :=
  if pan ≤ -500 then ⟨1, 0⟩
  else if 500 ≤ pan then ⟨0, 1⟩
  else ⟨Real.sin (panF * (-pan + 500)), Real.sin (panF * (pan + 500))⟩

/-! ## Fixed-point phase

Modelled from the spec: the fixed-point phase class is not among the
available sources.  Spec §4.2: "two's-complement 64-bit with F fractional
bits (... F=32 recommended)", with addition of a delta, subtraction of an
integer frame count, `integer() → u32` and `fractional() → f64 ∈ [0,1)`.
We use the 32.32 split the spec recommends: `raw` is the 64-bit word,
kept in `[0, 2^64)` by reducing every operation modulo `2^64`. -/

/-- Modelled from the spec: 32.32 fixed-point value (spec §4.2). -/
structure FixedPoint where
  raw : ℕ

/-- Modelled from the spec: construction from a `u32` frame count
(`FixedPoint(n)` as used in `voice.cpp` line 120). -/
def FixedPoint.ofNat (n : ℕ) : FixedPoint :=
  ⟨n % 2 ^ 32 * 2 ^ 32⟩

/-- Modelled from the spec: construction from a nonnegative `double`
(used for `deltaPhase_`); the fractional scaling by `2^32` with truncation. -/
noncomputable def FixedPoint.ofReal (x : ℝ) : FixedPoint :=
  ⟨⌊x * 2 ^ 32⌋₊ % 2 ^ 64⟩

/-- Modelled from the spec: `operator+=` — 64-bit wrapping addition. -/
def FixedPoint.add (a b : FixedPoint) : FixedPoint :=
  ⟨(a.raw + b.raw) % 2 ^ 64⟩

/-- Modelled from the spec: `operator-=` of another fixed-point value —
two's-complement 64-bit wrapping subtraction. -/
def FixedPoint.sub (a b : FixedPoint) : FixedPoint :=
  ⟨(a.raw + (2 ^ 64 - b.raw % 2 ^ 64)) % 2 ^ 64⟩

/-- Modelled from the spec: `getIntegerPart() → u32` — the high 32 bits. -/
def FixedPoint.getIntegerPart (a : FixedPoint) : ℕ :=
  a.raw / 2 ^ 32 % 2 ^ 32

/-- Modelled from the spec: `getFractionalPart() → f64 ∈ [0,1)` — the low
32 bits scaled down. -/
noncomputable def FixedPoint.getFractionalPart (a : FixedPoint) : ℝ :=
  ((a.raw % 2 ^ 32 : ℕ) : ℝ) / 2 ^ 32

/-! ## SoundFont enumerations (from `soundfont.h`, reconstructed from their
uses in `voice.cpp` / `modulator.h` and spec §3) -/

/-- The SoundFont generator (destination) enumeration; the constructors are
the ones used by `voice.cpp`. -/
inductive SFGenerator where
  | startAddrsOffset | endAddrsOffset | startloopAddrsOffset | endloopAddrsOffset
  | startAddrsCoarseOffset | endAddrsCoarseOffset
  | startloopAddrsCoarseOffset | endloopAddrsCoarseOffset
  | modLfoToPitch | vibLfoToPitch | modEnvToPitch
  | modLfoToVolume
  | pan | initialAttenuation
  | delayModLFO | freqModLFO | delayVibLFO | freqVibLFO
  | delayModEnv | attackModEnv | holdModEnv | decayModEnv
  | sustainModEnv | releaseModEnv
  | keynumToModEnvHold | keynumToModEnvDecay
  | delayVolEnv | attackVolEnv | holdVolEnv | decayVolEnv
  | sustainVolEnv | releaseVolEnv
  | keynumToVolEnvHold | keynumToVolEnvDecay
  | keynum | velocity
  | coarseTune | fineTune | scaleTuning | pitch
  | sampleModes | overridingRootKey | exclusiveClass
  deriving DecidableEq, Repr

/-- The SoundFont general controller enumeration (spec §3; `noController`
stands for the spec's "none"). -/
inductive SFGeneralController where
  | noController | noteOnVelocity | noteOnKeyNumber | polyPressure
  | channelPressure | pitchWheel | pitchWheelSensitivity | link
  deriving DecidableEq, Repr

/-- Sample playback modes (spec §3: `{Unused, UnLooped, Looped,
LoopedWithRemainder}`). -/
inductive SampleMode where
  | UnUsed | UnLooped | Looped | LoopedWithRemainder
  deriving DecidableEq, Repr

/-- Modelled from the spec: the numeric `sampleModes` generator value cast
to `SampleMode` (`static_cast<SampleMode>` in `voice.cpp` line 38), in the
order the spec lists the modes. -/
def sampleModeOfInt (v : ℤ) : SampleMode :=
  if v = 1 then .UnLooped
  else if v = 2 then .Looped
  else if v = 3 then .LoopedWithRemainder
  else .UnUsed

/-! ## GeneratorSet -/

/-- Modelled from the spec: a `GeneratorSet` is "a dense mapping
`destination → int16`" (spec §3) supporting read with spec-defined default
and write; we model the map with the defaults already merged in. -/
structure GeneratorSet where
  vals : SFGenerator → ℤ

/-- Modelled from the spec: `getOrDefault` reads the merged value. -/
def GeneratorSet.getOrDefault (gs : GeneratorSet) (g : SFGenerator) : ℤ :=
  gs.vals g

/-- Modelled from the spec: `set` writes (overrides) one entry. -/
def GeneratorSet.set (gs : GeneratorSet) (g : SFGenerator) (v : ℤ) : GeneratorSet :=
  ⟨fun h => if h = g then v else gs.vals h⟩

/-! ## Envelope

Modelled from the spec: the DAHDSR envelope implementation is not among the
available sources.  Spec §4.4: sections
`Delay → Attack → Hold → Decay → Sustain → Release → Finished`, initial
state `Delay`; `setParameter(section, value)` stores the section parameter
(timecents, centibels for Sustain); `update` advances the internal time by
one output sample period and transitions when the section duration
elapses; `release()` forces Release; `finish()` forces Finished;
`isFinished ⟺ state = Finished`; `getValue()` is the current level, 0 once
finished.  The exact level curve is implementation latitude per spec §4.4
("Implementers may use the same shape as the reference provided the
contract above is satisfied"); no verified claim depends on it, so the
level is carried as a stored value shaped only by the Finished contract. -/

/-- Envelope sections (spec §4.4). -/
inductive EnvSection where
  | Delay | Attack | Hold | Decay | Sustain | Release | Finished
  deriving DecidableEq, Repr

/-- Modelled from the spec: DAHDSR envelope state.  `t` is the time spent
in the current section (seconds), `period` one output sample period;
the `*Param` fields hold the values given to `setParameter` (timecents,
centibels for sustain). -/
structure Envelope where
  sec : EnvSection
  t : ℝ
  period : ℝ
  delayParam : ℝ
  attackParam : ℝ
  holdParam : ℝ
  decayParam : ℝ
  sustainParam : ℝ
  releaseParam : ℝ
  level : ℝ

/-- `conv::timecentToSecond` (`conversion.cpp` lines 55–57). -/
noncomputable def timecentToSecond (tc : ℝ) : ℝ :=
  Real.rpow 2 (tc / 1200)

/-- Modelled from the spec: a fresh envelope (constructed with the output
rate), starting in `Delay` at level 0 with time 0. -/
noncomputable def Envelope.init (outputRate : ℝ) : Envelope :=
  { sec := .Delay, t := 0, period := 1 / outputRate
    delayParam := 0, attackParam := 0, holdParam := 0, decayParam := 0
    sustainParam := 0, releaseParam := 0, level := 0 }

/-- Modelled from the spec: `setParameter(section, value)` stores the
section's parameter; it does not change the current section. -/
def Envelope.setParameter (e : Envelope) (s : EnvSection) (value : ℝ) : Envelope :=
  match s with
  | .Delay => { e with delayParam := value }
  | .Attack => { e with attackParam := value }
  | .Hold => { e with holdParam := value }
  | .Decay => { e with decayParam := value }
  | .Sustain => { e with sustainParam := value }
  | .Release => { e with releaseParam := value }
  | .Finished => e

/-- Modelled from the spec: `update` advances the internal time by one
output sample period and transitions to the next section when the current
timed section's duration (`timecentToSecond` of its parameter) has
elapsed.  `Sustain` holds until `release()`; `Finished` is absorbing. -/
noncomputable def Envelope.update (e : Envelope) : Envelope :=
  match e.sec with
  | .Finished => e
  | .Sustain => { e with t := e.t + e.period }
  | .Delay =>
    let t := e.t + e.period
    if t < timecentToSecond e.delayParam then { e with t := t }
    else { e with sec := .Attack, t := 0 }
  | .Attack =>
    let t := e.t + e.period
    if t < timecentToSecond e.attackParam then { e with t := t }
    else { e with sec := .Hold, t := 0 }
  | .Hold =>
    let t := e.t + e.period
    if t < timecentToSecond e.holdParam then { e with t := t }
    else { e with sec := .Decay, t := 0 }
  | .Decay =>
    let t := e.t + e.period
    if t < timecentToSecond e.decayParam then { e with t := t }
    else { e with sec := .Sustain, t := 0 }
  | .Release =>
    let t := e.t + e.period
    if t < timecentToSecond e.releaseParam then { e with t := t }
    else { e with sec := .Finished, t := 0, level := 0 }

/-- Modelled from the spec: `release()` forces transition to `Release`
from any earlier state (preserving the level); it does not resurrect a
finished envelope. -/
def Envelope.release (e : Envelope) : Envelope :=
  match e.sec with
  | .Finished => e
  | .Release => e
  | _ => { e with sec := .Release, t := 0 }

/-- Modelled from the spec: `finish()` forces transition to `Finished`. -/
def Envelope.finish (e : Envelope) : Envelope :=
  { e with sec := .Finished }

/-- Modelled from the spec: `isFinished()`. -/
def Envelope.isFinished (e : Envelope) : Bool :=
  e.sec = .Finished

/-- Modelled from the spec: `getValue()` — the current level, 0 once
finished. -/
def Envelope.getValue (e : Envelope) : ℝ :=
  if e.sec = .Finished then 0 else e.level

/-! ## LFO

Modelled from the spec: the LFO implementation is not among the available
sources.  Spec §4.5: triangle wave in `[-1,1]`, initial phase 0;
`setDelay(timecents)` sets a silent pre-roll; `setFrequency(absoluteCents)`
sets the frequency via `absoluteCentToHeltz`; `update` advances by one
sample; during the delay `getValue() = 0`. -/

/-- `conv::absoluteCentToHeltz` (`conversion.cpp` lines 59–61). -/
noncomputable def absoluteCentToHeltz (ac : ℝ) : ℝ :=
  8.176 * Real.rpow 2 (ac / 1200)

/-- Modelled from the spec: LFO state; `delayParam` / `freqParam` hold the
raw values given to `setDelay` / `setFrequency`, `t` the elapsed time in
seconds. -/
structure LFO where
  t : ℝ
  period : ℝ
  delayParam : ℝ
  freqParam : ℝ

/-- Modelled from the spec: a fresh LFO at phase 0. -/
noncomputable def LFO.init (outputRate : ℝ) : LFO :=
  { t := 0, period := 1 / outputRate, delayParam := 0, freqParam := 0 }

/-- Modelled from the spec: `setDelay(timecents)`. -/
def LFO.setDelay (l : LFO) (tc : ℝ) : LFO :=
  { l with delayParam := tc }

/-- Modelled from the spec: `setFrequency(absoluteCents)`. -/
def LFO.setFrequency (l : LFO) (ac : ℝ) : LFO :=
  { l with freqParam := ac }

/-- Modelled from the spec: `update` advances the LFO by one sample. -/
def LFO.update (l : LFO) : LFO :=
  { l with t := l.t + l.period }

/-- Triangle wave of unit period and range `[-1,1]` starting at 0:
`4·|x − ⌊x + 1/2⌋| − 1` shifted so the value at phase 0 is 0. -/
noncomputable def triangleWave (x : ℝ) : ℝ :=
  4 * |x + 3 / 4 - ⌊x + 3 / 4 + 1 / 2⌋| - 1

/-- Modelled from the spec: `getValue()` — 0 during the delay pre-roll,
afterwards a triangle wave at the configured frequency. -/
noncomputable def LFO.getValue (l : LFO) : ℝ :=
  if l.t < timecentToSecond l.delayParam then 0
  else triangleWave (absoluteCentToHeltz l.freqParam * (l.t - timecentToSecond l.delayParam))

/-! ## Modulator

Modelled from the spec: only the class declaration `modulator.h` is among
the available sources; the implementation is modelled from spec §3
(ModulatorDescriptor) and §4.6 (runtime behaviour). -/

/-- A modulator source controller: one of the general controllers or a
7-bit MIDI CC number (spec §3). -/
inductive ModControllerId where
  | general (c : SFGeneralController)
  | midiCC (cc : ℕ)
  deriving DecidableEq, Repr

/-- Normalization curve types (spec §3). -/
inductive CurveType where
  | linear | concave | convex | switch
  deriving DecidableEq, Repr

/-- A source operator: controller id, polarity (bipolar?), direction
(inverted?), curve type (spec §3). -/
structure ModOperator where
  controller : ModControllerId
  bipolar : Bool
  inverted : Bool
  curve : CurveType
  deriving DecidableEq, Repr

/-- A modulator descriptor `sfModList` (spec §3): source operator,
amount-source operator, destination, amount, transform (identity or
absolute value). -/
structure SfModList where
  sfModSrcOper : ModOperator
  sfModAmtSrcOper : ModOperator
  sfModDestOper : SFGenerator
  modAmount : ℤ
  transformAbs : Bool
  deriving DecidableEq, Repr

/-- Modelled from the spec: normalization of a raw controller value into
`[0,1]` before the curve (spec §4.6); MIDI CC values are 7-bit, general
controller values are divided the same way (the exact divisor per general
controller is not pinned down by the spec and no claim depends on it). -/
noncomputable def normalizeRaw (v : ℤ) : ℝ :=
  (v : ℝ) / 127

/-- Modelled from the spec (§4.6 normalization curves): apply the
direction bit, the curve and the polarity to a `[0,1]` input. -/
noncomputable def ModOperator.normalize (op : ModOperator) (v : ℤ) : ℝ :=
  let x0 := normalizeRaw v
  let x := if op.inverted then 1 - x0 else x0
  let y :=
    match op.curve with
    | .linear => x
    | .concave => -(20 / 96) * Real.logb 10 (1 - x ^ 2)
    | .convex => 1 + 20 / 96 * Real.logb 10 (1 - (1 - x) ^ 2)
    | .switch => if x < 1 / 2 then 0 else 1
  if op.bipolar then 2 * y - 1 else y

/-- Runtime modulator (spec §3/§4.6): descriptor plus cached `source`,
`amountSource` and `value`. -/
structure Modulator where
  param : SfModList
  source : ℝ
  amountSource : ℝ
  value : ℝ

/-- Modelled from the spec: construction initializes
`source = amountSource = 0`, `value = 0` (spec §4.6). -/
def Modulator.init (p : SfModList) : Modulator :=
  { param := p, source := 0, amountSource := 0, value := 0 }

/-- `Modulator::getDestination` (constant, per `modulator.h` / spec §4.6). -/
def Modulator.getDestination (m : Modulator) : SFGenerator :=
  m.param.sfModDestOper

/-- Modelled from the spec: `isSourceSFController(c)` ⟺ the source
operator's controller is the general controller `c`, or the amount-source
operator's is (spec §4.6). -/
def Modulator.isSourceSFController (m : Modulator) (c : SFGeneralController) : Bool :=
  m.param.sfModSrcOper.controller = .general c
    || m.param.sfModAmtSrcOper.controller = .general c

/-- Modelled from the spec: `isSourceMIDIController(cc)` analogously for a
MIDI CC source (spec §4.6). -/
def Modulator.isSourceMIDIController (m : Modulator) (cc : ℕ) : Bool :=
  m.param.sfModSrcOper.controller = .midiCC cc
    || m.param.sfModAmtSrcOper.controller = .midiCC cc

/-- Modelled from the spec: recompute
`value = amount × transform(source) × amountSource` (spec §4.6(d); the
transform — identity or absolute value — is applied to `source`). -/
def Modulator.calculateValue (m : Modulator) : Modulator :=
  { m with value :=
      (m.param.modAmount : ℝ)
        * (if m.param.transformAbs then |m.source| else m.source)
        * m.amountSource }

/-- Modelled from the spec: `updateSFController(c, value)` — store the
normalized value into `source` and/or `amountSource` for whichever
operator matches, then recompute `value` (spec §4.6). -/
noncomputable def Modulator.updateSF (m : Modulator) (c : SFGeneralController) (v : ℤ) : Modulator :=
  let m1 := if m.param.sfModSrcOper.controller = .general c then
      { m with source := m.param.sfModSrcOper.normalize v } else m
  let m2 := if m.param.sfModAmtSrcOper.controller = .general c then
      { m1 with amountSource := m.param.sfModAmtSrcOper.normalize v } else m1
  m2.calculateValue

/-- Modelled from the spec: `updateMIDIController(cc, value)` analogously
(spec §4.6). -/
noncomputable def Modulator.updateMIDI (m : Modulator) (cc : ℕ) (v : ℤ) : Modulator :=
  let m1 := if m.param.sfModSrcOper.controller = .midiCC cc then
      { m with source := m.param.sfModSrcOper.normalize v } else m
  let m2 := if m.param.sfModAmtSrcOper.controller = .midiCC cc then
      { m1 with amountSource := m.param.sfModAmtSrcOper.normalize v } else m1
  m2.calculateValue

/-! ## Sample metadata -/

/-- The bank-provided sample record (spec §6): immutable buffer plus
addresses, sample rate, root key and pitch correction.  `end_` stands for
the C++ field `end` (a Lean keyword). -/
structure Sample where
  buffer : List ℤ
  start : ℕ
  end_ : ℕ
  startLoop : ℕ
  endLoop : ℕ
  sampleRate : ℕ
  key : ℕ
  correction : ℤ

/-- The voice-local sample metadata `sample_` (spec §3): the buffer, the
root pitch, the playback mode and the four addresses after the generator
offsets are applied. -/
structure VoiceSample where
  buffer : List ℤ
  pitch : ℝ
  mode : SampleMode
  start : ℕ
  end_ : ℕ
  startLoop : ℕ
  endLoop : ℕ

/-- Reduction of an `int` expression to `u32` (the sample address fields);
`Int.emod` is nonnegative for a positive modulus. -/
def u32ofInt (x : ℤ) : ℕ :=
  (x % 2 ^ 32).toNat

/-! ## Voice (`voice.cpp`) -/

/-- The voice state (`voice.cpp` members; spec §3 "Voice state"). -/
structure Voice where
  noteID : ℕ
  generators : GeneratorSet
  actualKey : ℕ
  key : ℤ
  velocity : ℤ
  modulations : SFGenerator → ℝ
  released : Bool
  phase : FixedPoint
  deltaPhase : FixedPoint
  deltaPhaseFactor : ℝ
  voicePitch : ℝ
  volume : StereoValue
  volEnv : Envelope
  modEnv : Envelope
  vibLFO : LFO
  modLFO : LFO
  modulators : List Modulator
  sample : VoiceSample

/-- `Voice::getModulatedGenerator` (`voice.cpp` lines 192–194). -/
noncomputable def Voice.getModulatedGenerator (v : Voice) (g : SFGenerator) : ℝ :=
  (v.generators.getOrDefault g : ℝ) + v.modulations g

/-- `Voice::isSounding` (`voice.cpp` lines 182–184). -/
def Voice.isSounding (v : Voice) : Bool :=
  !v.volEnv.isFinished

/-- `Voice::overrideGenerator` (`voice.cpp` lines 165–167). -/
def Voice.overrideGenerator (v : Voice) (generator : SFGenerator) (value : ℤ) : Voice :=
  { v with generators := v.generators.set generator value }

/-- `Voice::release` (`voice.cpp` lines 186–190). -/
def Voice.release (v : Voice) : Voice :=
  { v with released := true, volEnv := v.volEnv.release, modEnv := v.modEnv.release }

/-- `Voice::updateModulatedParams` (`voice.cpp` lines 196–279): write
`modulations[destination] = Σ value` over the modulators routed to
`destination`, then perform the destination-specific side effect (the
`switch`). -/
noncomputable def Voice.updateModulatedParams (v : Voice) (destination : SFGenerator) : Voice :=
  let modulation :=
    (v.modulators.filter (fun m => m.getDestination = destination)).foldl
      (fun acc m => acc + m.value) 0
  let v1 : Voice :=
    { v with modulations := fun g => if g = destination then modulation else v.modulations g }
  match destination with
  | .pan | .initialAttenuation =>
    let atten := 0.4 * (v1.generators.getOrDefault .initialAttenuation : ℝ)
      + v1.modulations .initialAttenuation
    let vol := scalarMulStereo (centibelToRatio atten)
      (calculatePannedVolume (v1.getModulatedGenerator .pan))
    { v1 with volume := vol }
  | .delayModLFO => { v1 with modLFO := v1.modLFO.setDelay (v1.getModulatedGenerator .delayModLFO) }
  | .freqModLFO => { v1 with modLFO := v1.modLFO.setFrequency (v1.getModulatedGenerator .freqModLFO) }
  | .delayVibLFO => { v1 with vibLFO := v1.vibLFO.setDelay (v1.getModulatedGenerator .delayVibLFO) }
  | .freqVibLFO => { v1 with vibLFO := v1.vibLFO.setFrequency (v1.getModulatedGenerator .freqVibLFO) }
  | .delayModEnv => { v1 with modEnv := v1.modEnv.setParameter .Delay (v1.getModulatedGenerator .delayModEnv) }
  | .attackModEnv => { v1 with modEnv := v1.modEnv.setParameter .Attack (v1.getModulatedGenerator .attackModEnv) }
  | .holdModEnv | .keynumToModEnvHold =>
    let p := v1.getModulatedGenerator .holdModEnv
      + v1.getModulatedGenerator .keynumToModEnvHold * (60 - (v1.key : ℝ))
    { v1 with modEnv := v1.modEnv.setParameter .Hold p }
  | .decayModEnv | .keynumToModEnvDecay =>
    let p := v1.getModulatedGenerator .decayModEnv
      + v1.getModulatedGenerator .keynumToModEnvDecay * (60 - (v1.key : ℝ))
    { v1 with modEnv := v1.modEnv.setParameter .Decay p }
  | .sustainModEnv => { v1 with modEnv := v1.modEnv.setParameter .Sustain (v1.getModulatedGenerator .sustainModEnv) }
  | .releaseModEnv => { v1 with modEnv := v1.modEnv.setParameter .Release (v1.getModulatedGenerator .releaseModEnv) }
  | .delayVolEnv => { v1 with volEnv := v1.volEnv.setParameter .Delay (v1.getModulatedGenerator .delayVolEnv) }
  | .attackVolEnv => { v1 with volEnv := v1.volEnv.setParameter .Attack (v1.getModulatedGenerator .attackVolEnv) }
  | .holdVolEnv | .keynumToVolEnvHold =>
    let p := v1.getModulatedGenerator .holdVolEnv
      + v1.getModulatedGenerator .keynumToVolEnvHold * (60 - (v1.key : ℝ))
    { v1 with volEnv := v1.volEnv.setParameter .Hold p }
  | .decayVolEnv | .keynumToVolEnvDecay =>
    let p := v1.getModulatedGenerator .decayVolEnv
      + v1.getModulatedGenerator .keynumToVolEnvDecay * (60 - (v1.key : ℝ))
    { v1 with volEnv := v1.volEnv.setParameter .Decay p }
  | .sustainVolEnv => { v1 with volEnv := v1.volEnv.setParameter .Sustain (v1.getModulatedGenerator .sustainVolEnv) }
  | .releaseVolEnv => { v1 with volEnv := v1.volEnv.setParameter .Release (v1.getModulatedGenerator .releaseVolEnv) }
  | .coarseTune | .fineTune | .scaleTuning | .pitch =>
    let p := v1.sample.pitch
      + 1e-4 * v1.modulations .pitch
      + 0.01 * v1.getModulatedGenerator .scaleTuning * ((v1.actualKey : ℝ) - v1.sample.pitch)
      + v1.getModulatedGenerator .coarseTune
      + 0.01 * v1.getModulatedGenerator .fineTune
    { v1 with voicePitch := p }
  | _ => v1

/-- The shared body of `Voice::updateSFController` and
`Voice::updateMIDIController` (`voice.cpp` lines 147–163): the in-place
`for` loop over `modulators_`, processing index `i` with `fuel` entries
remaining.  For each modulator whose source matches, the modulator is
updated in place and `updateModulatedParams(mod.getDestination())` runs on
the current state.  The second component is the trace of
`updateModulatedParams` calls, recorded to state frame-effect properties;
the C++ functions return `void`. -/
noncomputable def Voice.updateControllerAux (hit : Modulator → Bool)
    (upd : Modulator → Modulator) : ℕ → ℕ → Voice → Voice × List SFGenerator
  | 0, _, v => (v, [])
  | fuel + 1, i, v =>
    match v.modulators.get? i with
    | none => (v, [])
    | some m =>
      if hit m then
        let m' := upd m
        let v1 : Voice := { v with modulators := v.modulators.set i m' }
        let v2 := v1.updateModulatedParams m'.getDestination
        let r := Voice.updateControllerAux hit upd fuel (i + 1) v2
        (r.1, m'.getDestination :: r.2)
      else
        Voice.updateControllerAux hit upd fuel (i + 1) v

/-- `Voice::updateSFController` (`voice.cpp` lines 147–154). -/
noncomputable def Voice.updateSFController (v : Voice) (controller : SFGeneralController)
    (value : ℤ) : Voice × List SFGenerator :=
  Voice.updateControllerAux (fun m => m.isSourceSFController controller)
    (fun m => m.updateSF controller value) v.modulators.length 0 v

/-- `Voice::updateMIDIController` (`voice.cpp` lines 156–163). -/
noncomputable def Voice.updateMIDIController (v : Voice) (controller : ℕ)
    (value : ℤ) : Voice × List SFGenerator :=
  Voice.updateControllerAux (fun m => m.isSourceMIDIController controller)
    (fun m => m.updateMIDI controller value) v.modulators.length 0 v

/-- The tail of `Voice::update` after the loop-mode `switch` (`voice.cpp`
lines 136–145): advance the LFOs and envelopes, then recompute
`deltaPhase_` from the modulated pitch (reading the just-updated envelope
and LFO values); `phase1` is the phase the switch left behind. -/
noncomputable def Voice.updateTail (v : Voice) (phase1 : FixedPoint) : Voice :=
  let vibLFO := v.vibLFO.update
  let modLFO := v.modLFO.update
  let volEnv := v.volEnv.update
  let modEnv := v.modEnv.update
  { v with
    phase := phase1
    vibLFO := vibLFO
    modLFO := modLFO
    volEnv := volEnv
    modEnv := modEnv
    deltaPhase := FixedPoint.ofReal (v.deltaPhaseFactor * keyToHeltzD (v.voicePitch
      + v.getModulatedGenerator .modEnvToPitch * modEnv.getValue
      + v.getModulatedGenerator .vibLfoToPitch * vibLFO.getValue
      + v.getModulatedGenerator .modLfoToPitch * modLFO.getValue)) }

/-- `Voice::update` (`voice.cpp` lines 99–145).  The `u32` expressions
`end - 1`, `endLoop - 1` and `endLoop - startLoop` are written as
`(x + 2^32 - y) % 2^32` to model unsigned wrap-around.  An early `return`
after `volEnv_.finish()` leaves the already-advanced phase in place. -/
noncomputable def Voice.update (v : Voice) : Voice :=
  if v.volEnv.isFinished then v
  else
    let phase1 := v.phase.add v.deltaPhase
    match v.sample.mode with
    | .UnLooped | .UnUsed =>
      if phase1.getIntegerPart > (v.sample.end_ + 2 ^ 32 - 1) % 2 ^ 32 then
        { v with phase := phase1, volEnv := v.volEnv.finish }
      else
        v.updateTail phase1
    | .Looped =>
      if phase1.getIntegerPart > (v.sample.endLoop + 2 ^ 32 - 1) % 2 ^ 32 then
        if v.released then
          { v with phase := phase1, volEnv := v.volEnv.finish }
        else
          v.updateTail (phase1.sub
            (FixedPoint.ofNat ((v.sample.endLoop + 2 ^ 32 - v.sample.startLoop) % 2 ^ 32)))
      else
        v.updateTail phase1
    | .LoopedWithRemainder =>
      if v.released then
        if phase1.getIntegerPart > (v.sample.end_ + 2 ^ 32 - 1) % 2 ^ 32 then
          { v with phase := phase1, volEnv := v.volEnv.finish }
        else
          v.updateTail phase1
      else
        if phase1.getIntegerPart > (v.sample.endLoop + 2 ^ 32 - 1) % 2 ^ 32 then
          v.updateTail (phase1.sub
            (FixedPoint.ofNat ((v.sample.endLoop + 2 ^ 32 - v.sample.startLoop) % 2 ^ 32)))
        else
          v.updateTail phase1

/-- `Voice::render` (`voice.cpp` lines 169–180).  The `std::vector::at`
accesses are modelled by `List.get?`; `none` is the out-of-range
exception.  `INT16_MAX = 32767`. -/
noncomputable def Voice.render (v : Voice) : Option StereoValue :=
  if v.volEnv.isFinished then some ⟨0, 0⟩
  else
    let i := v.phase.getIntegerPart
    let r := v.phase.getFractionalPart
    match v.sample.buffer.get? i, v.sample.buffer.get? (i + 1) with
    | some b0, some b1 =>
      let interpolated := (1 - r) * (b0 : ℝ) + r * (b1 : ℝ)
      some ((scalarMulStereo
        (v.volEnv.getValue
          * centibelToRatio (v.getModulatedGenerator .modLfoToVolume * v.modLFO.getValue))
        v.volume).mulScalar (interpolated / 32767))
    | _, _ => none

/-- The `INIT_GENERATORS` list of the constructor (`voice.cpp` lines
62–81), in source order. -/
def INIT_GENERATORS : List SFGenerator :=
  [.pan, .delayModLFO, .freqModLFO, .delayVibLFO, .freqVibLFO,
   .delayModEnv, .attackModEnv, .holdModEnv, .decayModEnv, .sustainModEnv,
   .releaseModEnv, .delayVolEnv, .attackVolEnv, .holdVolEnv, .decayVolEnv,
   .sustainVolEnv, .releaseVolEnv, .coarseTune]

/-- `Voice::Voice` (`voice.cpp` lines 16–85).  Member initializers:
`modulations_()` zeroed, `phase_(sample->start)` — the *bank* start, not
the offset-adjusted `sample_.start` —, `volume_({1.0, 1.0})`, fresh
envelopes and LFOs.  `deltaPhase_` is value-initialized to zero and
`voicePitch_` is assigned by `updateModulatedParams(coarseTune)` before
the constructor returns (it starts there as 0 in the model).  Then the
body: key/velocity overrides, sample metadata with generator offsets,
`deltaPhaseFactor`, the modulator list, the three seed controller pushes
and the `INIT_GENERATORS` recomputation loop. -/
noncomputable def mkVoice (noteID : ℕ) (outputRate : ℝ) (sample : Sample)
    (generators : GeneratorSet) (modparams : List SfModList)
    (key velocity : ℕ) : Voice :=
  let overriddenKey := generators.getOrDefault .keynum
  let key_ : ℤ := if 0 < overriddenKey then overriddenKey else (key : ℤ)
  let overriddenVelocity := generators.getOrDefault .velocity
  let velocity_ : ℤ := if 0 < overriddenVelocity then overriddenVelocity else (velocity : ℤ)
  let overriddenSampleKey := generators.getOrDefault .overridingRootKey
  let samplePitch : ℝ :=
    ((if 0 < overriddenSampleKey then overriddenSampleKey else (sample.key : ℤ)) : ℝ)
      - 0.01 * (sample.correction : ℝ)
  let vs : VoiceSample :=
    { buffer := sample.buffer
      pitch := samplePitch
      mode := sampleModeOfInt (generators.getOrDefault .sampleModes)
      start := u32ofInt ((sample.start : ℤ)
        + 32768 * generators.getOrDefault .startAddrsCoarseOffset
        + generators.getOrDefault .startAddrsOffset)
      end_ := u32ofInt ((sample.end_ : ℤ)
        + 32768 * generators.getOrDefault .endAddrsCoarseOffset
        + generators.getOrDefault .endAddrsOffset)
      startLoop := u32ofInt ((sample.startLoop : ℤ)
        + 32768 * generators.getOrDefault .startloopAddrsCoarseOffset
        + generators.getOrDefault .startloopAddrsOffset)
      endLoop := u32ofInt ((sample.endLoop : ℤ)
        + 32768 * generators.getOrDefault .endloopAddrsCoarseOffset
        + generators.getOrDefault .endloopAddrsOffset) }
  let v0 : Voice :=
    { noteID := noteID
      generators := generators
      actualKey := key
      key := key_
      velocity := velocity_
      modulations := fun _ => 0
      released := false
      phase := FixedPoint.ofNat sample.start
      deltaPhase := ⟨0⟩
      deltaPhaseFactor := 1 / keyToHeltzD samplePitch * (sample.sampleRate : ℝ) / outputRate
      voicePitch := 0
      volume := ⟨1, 1⟩
      volEnv := Envelope.init outputRate
      modEnv := Envelope.init outputRate
      vibLFO := LFO.init outputRate
      modLFO := LFO.init outputRate
      modulators := modparams.map Modulator.init
      sample := vs }
  let v1 := (v0.updateSFController .noteOnVelocity (velocity : ℤ)).1
  let v2 := (v1.updateSFController .noteOnKeyNumber (key : ℤ)).1
  let v3 := (v2.updateSFController .pitchWheelSensitivity 2).1
  INIT_GENERATORS.foldl (fun v g => v.updateModulatedParams g) v3

/-! ## Helper lemmas about the conversion tables -/

theorem centibelToRatioTable_nonneg (i : ℕ) : 0 ≤ centibelToRatioTable i := by
  unfold centibelToRatioTable
  exact Real.rpow_nonneg (by norm_num) _

theorem centibelToRatioTable_le_one (i : ℕ) : centibelToRatioTable i ≤ 1 := by
  unfold centibelToRatioTable
  calc Real.rpow 10 ((i : ℝ) / (-200)) ≤ Real.rpow 10 0 := by
        apply Real.rpow_le_rpow_of_exponent_le (by norm_num)
        have : (0 : ℝ) ≤ (i : ℝ) := Nat.cast_nonneg i
        linarith [this]
    _ = 1 := Real.rpow_zero 10

theorem centibelToRatioTable_antitone {i j : ℕ} (h : i ≤ j) :
    centibelToRatioTable j ≤ centibelToRatioTable i := by
  unfold centibelToRatioTable
  apply Real.rpow_le_rpow_of_exponent_le (by norm_num)
  have : (i : ℝ) ≤ (j : ℝ) := Nat.cast_le.mpr h
  linarith

theorem centibelToRatio_of_nonpos {cb : ℝ} (h : cb ≤ 0) : centibelToRatio cb = 1 := by
  rw [centibelToRatio, if_pos h]

theorem centibelToRatio_of_ge {cb : ℝ} (h : 1441 ≤ cb) : centibelToRatio cb = 0 := by
  rw [centibelToRatio, if_neg (by linarith), if_pos h]

theorem centibelToRatio_of_mid {cb : ℝ} (h0 : 0 < cb) (h1 : cb < 1441) :
    centibelToRatio cb = centibelToRatioTable ⌊cb⌋₊ := by
  rw [centibelToRatio, if_neg (by linarith), if_neg (by linarith)]

/-- The loop of `keyToHeltz` returns the fall-through value 1 once
`key * 100` is at least the final threshold 14100. -/
theorem keyToHeltzLoop_high (key : ℝ) (hk : 14100 ≤ key * 100) :
    ∀ n k, 12 - k ≤ n → keyToHeltzLoop key k = some 1 := by
  intro n
  induction n with
  | zero =>
    intro k hkk
    rw [keyToHeltzLoop, if_neg (by omega)]
  | succ n ih =>
    intro k hkk
    rw [keyToHeltzLoop]
    by_cases h12 : k < 12
    · rw [if_pos h12, if_neg ?_, ih (k + 1) (by omega)]
      push_neg
      have hk11 : (k : ℝ) ≤ 11 := by exact_mod_cast Nat.lt_succ_iff.mp h12
      linarith
    · rw [if_neg h12]

/-! ## Claim theorems: conversion functions and panning -/

/-- C4: `centibelToRatio(cb)` returns 1.0 for `cb ≤ 0`, 0.0 for
`cb ≥ 1441`, and `10^(⌊cb⌋ / −200)` otherwise; consequently
`centibelToRatio 0 = 1`, `centibelToRatio 1441 = 0`, and the function is
monotonically non-increasing over all inputs. -/
theorem C4_centibelToRatio_spec :
    (∀ cb : ℝ, cb ≤ 0 → centibelToRatio cb = 1)
    ∧ (∀ cb : ℝ, 1441 ≤ cb → centibelToRatio cb = 0)
    ∧ (∀ cb : ℝ, 0 < cb → cb < 1441 →
        centibelToRatio cb = Real.rpow 10 ((⌊cb⌋₊ : ℝ) / (-200)))
    ∧ centibelToRatio 0 = 1
    ∧ centibelToRatio 1441 = 0
    ∧ ∀ x y : ℝ, x ≤ y → centibelToRatio y ≤ centibelToRatio x := by
  refine ⟨fun cb h => centibelToRatio_of_nonpos h,
    fun cb h => centibelToRatio_of_ge h,
    fun cb h0 h1 => centibelToRatio_of_mid h0 h1,
    centibelToRatio_of_nonpos le_rfl,
    centibelToRatio_of_ge le_rfl,
    fun x y hxy => ?_⟩
  by_cases hy0 : y ≤ 0
  · rw [centibelToRatio_of_nonpos hy0, centibelToRatio_of_nonpos (le_trans hxy hy0)]
  · push_neg at hy0
    by_cases hx0 : x ≤ 0
    · rw [centibelToRatio_of_nonpos hx0]
      by_cases hy1 : 1441 ≤ y
      · rw [centibelToRatio_of_ge hy1]; norm_num
      · push_neg at hy1
        rw [centibelToRatio_of_mid hy0 hy1]
        exact centibelToRatioTable_le_one _
    · push_neg at hx0
      by_cases hy1 : 1441 ≤ y
      · rw [centibelToRatio_of_ge hy1]
        by_cases hx1 : 1441 ≤ x
        · rw [centibelToRatio_of_ge hx1]
        · push_neg at hx1
          rw [centibelToRatio_of_mid hx0 hx1]
          exact centibelToRatioTable_nonneg _
      · push_neg at hy1
        have hx1 : x < 1441 := lt_of_le_of_lt hxy hy1
        rw [centibelToRatio_of_mid hx0 hx1, centibelToRatio_of_mid hy0 hy1]
        exact centibelToRatioTable_antitone (Nat.floor_le_floor hxy)

/-- Witness for C4 at concrete inputs. -/
theorem C4_centibelToRatio_spec_witness :
    centibelToRatio (-5) = 1 ∧ centibelToRatio 2000 = 0
      ∧ centibelToRatio 700 ≤ centibelToRatio 600 := by
  obtain ⟨h1, h2, _, _, _, h6⟩ := C4_centibelToRatio_spec
  exact ⟨h1 (-5) (by norm_num), h2 2000 (by norm_num), h6 600 700 (by norm_num)⟩

/-- C7: `keyToHeltz 69` is exactly 440 Hz (so within the claimed `1e-9`
relative error of 440), and every negative key returns 1.0. -/
theorem C7_keyToHeltz_A4_and_negative :
    (∃ h : ℝ, keyToHeltz 69 = some h ∧ |h - 440| ≤ 1e-9 * 440)
    ∧ ∀ key : ℝ, key < 0 → keyToHeltz key = some 1 := by
  constructor
  · refine ⟨440, ?_, by norm_num⟩
    rw [keyToHeltz, if_neg (by norm_num)]
    -- iterations k = 0..5 fail the threshold test `69*100 < 900+1200k`
    rw [keyToHeltzLoop, if_pos (by norm_num), if_neg (by norm_num)]
    rw [keyToHeltzLoop, if_pos (by norm_num), if_neg (by norm_num)]
    rw [keyToHeltzLoop, if_pos (by norm_num), if_neg (by norm_num)]
    rw [keyToHeltzLoop, if_pos (by norm_num), if_neg (by norm_num)]
    rw [keyToHeltzLoop, if_pos (by norm_num), if_neg (by norm_num)]
    rw [keyToHeltzLoop, if_pos (by norm_num), if_neg (by norm_num)]
    -- iteration k = 6: threshold 8100, r = 2^6 = 64, offset = 300 − 7200 (mod 2^64)
    rw [keyToHeltzLoop, if_pos (by norm_num), if_pos (by norm_num)]
    have hfl : ⌊(69 : ℝ) * 100⌋₊ = 6900 := by norm_num
    rw [hfl]
    have hoff : (6900 + keyToHeltzOffset 6) % 2 ^ 64 = 0 := by norm_num [keyToHeltzOffset]
    rw [hoff]
    have hat : centToHeltzAt 0 = some 6.875 := by
      rw [centToHeltzAt, if_pos (by norm_num)]
      norm_num [Real.rpow_zero]
    rw [hat]
    simp only [Option.map]
    norm_num
  · intro key hk
    rw [keyToHeltz, if_pos hk]

/-- Witness for C7 at a concrete negative key. -/
theorem C7_keyToHeltz_A4_and_negative_witness :
    (-1 : ℝ) < 0 ∧ keyToHeltz (-1) = some 1 :=
  ⟨by norm_num, C7_keyToHeltz_A4_and_negative.2 (-1) (by norm_num)⟩

/-- C10: every key at or above 141 falls through the octave-stepping table
loop and returns 1.0 Hz. -/
theorem C10_keyToHeltz_high_fallback :
    ∀ key : ℝ, 141 ≤ key → keyToHeltz key = some 1 := by
  intro key hk
  rw [keyToHeltz, if_neg (by linarith)]
  exact keyToHeltzLoop_high key (by linarith) 12 0 (by omega)

/-- Witness for C10 at key 141. -/
theorem C10_keyToHeltz_high_fallback_witness :
    keyToHeltz 141 = some 1 :=
  C10_keyToHeltz_high_fallback 141 (by norm_num)

/-- C9: the pan law is left–right symmetric on `[−500, 500]`:
`calculatePannedVolume(−pan).left = calculatePannedVolume(pan).right`. -/
theorem C9_calculatePannedVolume_symmetric :
    ∀ pan : ℝ, -500 ≤ pan → pan ≤ 500 →
      (calculatePannedVolume (-pan)).left = (calculatePannedVolume pan).right := by
  intro pan _ _
  unfold calculatePannedVolume
  rcases le_or_lt pan (-500) with h1 | h1
  · rw [if_pos h1, if_neg (by linarith), if_pos (by linarith)]
  · rcases le_or_lt 500 pan with h2 | h2
    · rw [if_pos (show -pan ≤ -500 by linarith), if_neg (show ¬pan ≤ -500 by linarith),
        if_pos h2]
    · rw [if_neg (by linarith), if_neg (by linarith), if_neg (by linarith),
        if_neg (by linarith)]
      show Real.sin (panF * (- -pan + 500)) = Real.sin (panF * (pan + 500))
      norm_num

/-- Witness for C9 at center pan. -/
theorem C9_calculatePannedVolume_symmetric_witness :
    (calculatePannedVolume (-(0 : ℝ))).left = (calculatePannedVolume (0 : ℝ)).right :=
  C9_calculatePannedVolume_symmetric 0 (by norm_num) (by norm_num)

/-! ## Claim theorem: overrideGenerator frame effect -/

/-- C8: `overrideGenerator(generator, value)` writes the value into the
voice's generator set and changes nothing else: modulations, volume,
voicePitch, deltaPhase, phase, envelopes, LFOs and the modulator list are
all unchanged, so no parameter recomputation is triggered. -/
theorem C8_overrideGenerator_frame :
    ∀ (v : Voice) (g : SFGenerator) (x : ℤ),
      (v.overrideGenerator g x).generators = v.generators.set g x
      ∧ (v.overrideGenerator g x).modulations = v.modulations
      ∧ (v.overrideGenerator g x).volume = v.volume
      ∧ (v.overrideGenerator g x).voicePitch = v.voicePitch
      ∧ (v.overrideGenerator g x).deltaPhase = v.deltaPhase
      ∧ (v.overrideGenerator g x).deltaPhaseFactor = v.deltaPhaseFactor
      ∧ (v.overrideGenerator g x).phase = v.phase
      ∧ (v.overrideGenerator g x).volEnv = v.volEnv
      ∧ (v.overrideGenerator g x).modEnv = v.modEnv
      ∧ (v.overrideGenerator g x).vibLFO = v.vibLFO
      ∧ (v.overrideGenerator g x).modLFO = v.modLFO
      ∧ (v.overrideGenerator g x).modulators = v.modulators
      ∧ (v.overrideGenerator g x).released = v.released
      ∧ (v.overrideGenerator g x).sample = v.sample :=
  fun _ _ _ => ⟨rfl, rfl, rfl, rfl, rfl, rfl, rfl, rfl, rfl, rfl, rfl, rfl, rfl, rfl⟩

/-! ## Claim theorems: render -/

/-- C2: `render()` returns `{0,0}` when the volume envelope is finished;
otherwise, with `i = phase.getIntegerPart()` and
`r = phase.getFractionalPart()`, it returns
`volEnv.getValue() × centibelToRatio(modulatedGenerator(modLfoToVolume) ×
modLFO.getValue()) × volume × (((1−r)·buffer[i] + r·buffer[i+1]) / 32767)`
as a stereo value. -/
theorem C2_render_formula :
    ∀ (v : Voice) (b0 b1 : ℤ),
      (v.volEnv.isFinished = true → v.render = some ⟨0, 0⟩)
      ∧ (v.volEnv.isFinished = false →
          v.sample.buffer.get? v.phase.getIntegerPart = some b0 →
          v.sample.buffer.get? (v.phase.getIntegerPart + 1) = some b1 →
          v.render = some
            ⟨v.volEnv.getValue
                * centibelToRatio (v.getModulatedGenerator .modLfoToVolume * v.modLFO.getValue)
                * v.volume.left
                * (((1 - v.phase.getFractionalPart) * (b0 : ℝ)
                    + v.phase.getFractionalPart * (b1 : ℝ)) / 32767),
              v.volEnv.getValue
                * centibelToRatio (v.getModulatedGenerator .modLfoToVolume * v.modLFO.getValue)
                * v.volume.right
                * (((1 - v.phase.getFractionalPart) * (b0 : ℝ)
                    + v.phase.getFractionalPart * (b1 : ℝ)) / 32767)⟩) := by
  intro v b0 b1
  constructor
  · intro h
    unfold Voice.render
    rw [if_pos h]
  · intro h h0 h1
    unfold Voice.render
    rw [if_neg (by rw [h]; exact Bool.false_ne_true)]
    simp only [h0, h1]
    rfl

/-- Witness for C2: a concrete sounding voice rendering from a 3-sample
buffer. -/
noncomputable def renderVoice : Voice :=
  { noteID := 0
    generators := ⟨fun _ => 0⟩
    actualKey := 60
    key := 60
    velocity := 100
    modulations := fun _ => 0
    released := false
    phase := ⟨0⟩
    deltaPhase := ⟨0⟩
    deltaPhaseFactor := 1
    voicePitch := 60
    volume := ⟨1, 1⟩
    volEnv := ⟨.Sustain, 0, 1 / 48000, 0, 0, 0, 0, 0, 0, 1⟩
    modEnv := ⟨.Sustain, 0, 1 / 48000, 0, 0, 0, 0, 0, 0, 1⟩
    vibLFO := ⟨0, 1 / 48000, 0, 0⟩
    modLFO := ⟨0, 1 / 48000, 0, 0⟩
    modulators := []
    sample := ⟨[5, 7, 9], 60, .UnLooped, 0, 1, 0, 1⟩ }

/-- Witness for C2 at `renderVoice`. -/
theorem C2_render_formula_witness :
    renderVoice.volEnv.isFinished = false
    ∧ renderVoice.sample.buffer.get? renderVoice.phase.getIntegerPart = some 5
    ∧ renderVoice.sample.buffer.get? (renderVoice.phase.getIntegerPart + 1) = some 7
    ∧ renderVoice.render = some
        ⟨renderVoice.volEnv.getValue
            * centibelToRatio
              (renderVoice.getModulatedGenerator .modLfoToVolume * renderVoice.modLFO.getValue)
            * renderVoice.volume.left
            * (((1 - renderVoice.phase.getFractionalPart) * ((5 : ℤ) : ℝ)
                + renderVoice.phase.getFractionalPart * ((7 : ℤ) : ℝ)) / 32767),
          renderVoice.volEnv.getValue
            * centibelToRatio
              (renderVoice.getModulatedGenerator .modLfoToVolume * renderVoice.modLFO.getValue)
            * renderVoice.volume.right
            * (((1 - renderVoice.phase.getFractionalPart) * ((5 : ℤ) : ℝ)
                + renderVoice.phase.getFractionalPart * ((7 : ℤ) : ℝ)) / 32767)⟩ :=
  ⟨rfl, rfl, rfl, (C2_render_formula renderVoice 5 7).2 rfl rfl rfl⟩

/-- C6: under the sample-metadata precondition (buffer longer than
`sample.end`, and `phase.getIntegerPart() + 1 ≤ end`), both buffer
accesses of `render()` are in bounds, so the out-of-range branch is
unreachable and `render` produces a value (never throws). -/
theorem C6_render_no_throw :
    ∀ v : Voice, v.sample.end_ < v.sample.buffer.length →
      v.phase.getIntegerPart + 1 ≤ v.sample.end_ →
      (v.render).isSome = true := by
  intro v hlen hend
  unfold Voice.render
  by_cases h : v.volEnv.isFinished
  · rw [if_pos h]
    rfl
  · rw [if_neg h]
    have hi : v.phase.getIntegerPart < v.sample.buffer.length := by omega
    have hi1 : v.phase.getIntegerPart + 1 < v.sample.buffer.length := by omega
    simp only [List.get?_eq_get hi, List.get?_eq_get hi1]
    rfl

/-- Witness for C6 at `renderVoice`. -/
theorem C6_render_no_throw_witness :
    renderVoice.sample.end_ < renderVoice.sample.buffer.length
    ∧ renderVoice.phase.getIntegerPart + 1 ≤ renderVoice.sample.end_
    ∧ (renderVoice.render).isSome = true :=
  ⟨by decide, by decide, C6_render_no_throw renderVoice (by decide) (by decide)⟩

/-! ## Frame lemmas: which fields the voice operations leave untouched -/

theorem updateModulatedParams_phase (v : Voice) (d : SFGenerator) :
    (v.updateModulatedParams d).phase = v.phase := by
  cases d <;> rfl

theorem updateModulatedParams_volEnvSec (v : Voice) (d : SFGenerator) :
    (v.updateModulatedParams d).volEnv.sec = v.volEnv.sec := by
  cases d <;> rfl

theorem updateModulatedParams_modulators (v : Voice) (d : SFGenerator) :
    (v.updateModulatedParams d).modulators = v.modulators := by
  cases d <;> rfl

theorem updateModulatedParams_sample (v : Voice) (d : SFGenerator) :
    (v.updateModulatedParams d).sample = v.sample := by
  cases d <;> rfl

theorem updateControllerAux_fst_phase (hit : Modulator → Bool) (upd : Modulator → Modulator) :
    ∀ (fuel i : ℕ) (v : Voice),
      ((Voice.updateControllerAux hit upd fuel i v).1).phase = v.phase := by
  intro fuel
  induction fuel with
  | zero => intro i v; rfl
  | succ n ih =>
    intro i v
    rw [Voice.updateControllerAux]
    cases hm : v.modulators.get? i with
    | none => rfl
    | some m =>
      dsimp only
      cases hh : hit m with
      | false =>
        rw [if_neg Bool.false_ne_true]
        exact ih (i + 1) v
      | true =>
        rw [if_pos rfl]
        dsimp only
        rw [ih, updateModulatedParams_phase]

theorem updateControllerAux_fst_volEnvSec (hit : Modulator → Bool) (upd : Modulator → Modulator) :
    ∀ (fuel i : ℕ) (v : Voice),
      ((Voice.updateControllerAux hit upd fuel i v).1).volEnv.sec = v.volEnv.sec := by
  intro fuel
  induction fuel with
  | zero => intro i v; rfl
  | succ n ih =>
    intro i v
    rw [Voice.updateControllerAux]
    cases hm : v.modulators.get? i with
    | none => rfl
    | some m =>
      dsimp only
      cases hh : hit m with
      | false =>
        rw [if_neg Bool.false_ne_true]
        exact ih (i + 1) v
      | true =>
        rw [if_pos rfl]
        dsimp only
        rw [ih, updateModulatedParams_volEnvSec]

theorem foldl_updateModulatedParams_phase :
    ∀ (l : List SFGenerator) (v : Voice),
      (l.foldl (fun v g => v.updateModulatedParams g) v).phase = v.phase := by
  intro l
  induction l with
  | nil => intro v; rfl
  | cons g l ih =>
    intro v
    rw [List.foldl_cons, ih, updateModulatedParams_phase]

theorem foldl_updateModulatedParams_volEnvSec :
    ∀ (l : List SFGenerator) (v : Voice),
      (l.foldl (fun v g => v.updateModulatedParams g) v).volEnv.sec = v.volEnv.sec := by
  intro l
  induction l with
  | nil => intro v; rfl
  | cons g l ih =>
    intro v
    rw [List.foldl_cons, ih, updateModulatedParams_volEnvSec]

theorem updateTail_phase (v : Voice) (p : FixedPoint) : (v.updateTail p).phase = p := rfl

/-! ## Claim theorems: the Looped-mode phase invariant -/

/-- C1 (amended): for a Looped, not-released voice with well-formed loop
metadata (`start ≤ startLoop < endLoop ≤ 2^31`), with the pre-update
invariant `start ≤ phase.integer < endLoop` (and a phase word in range),
and with a per-sample phase increment smaller than the loop length
(`deltaPhase < (endLoop − startLoop)` frames), after `update()` either
`phase.integer ∈ [start, endLoop)` again or the voice is finished.  The
increment bound is necessary: `update` subtracts the loop length only
once (`voice.cpp` lines 114–122), so a larger increment can leave
`phase.integer ≥ endLoop` (see the counterexample). -/
theorem C1_looped_phase_invariant :
    ∀ v : Voice,
      v.sample.mode = .Looped →
      v.released = false →
      v.sample.start ≤ v.sample.startLoop →
      v.sample.startLoop < v.sample.endLoop →
      v.sample.endLoop ≤ 2 ^ 31 →
      v.phase.raw < 2 ^ 64 →
      v.sample.start ≤ v.phase.getIntegerPart →
      v.phase.getIntegerPart < v.sample.endLoop →
      v.deltaPhase.raw < (v.sample.endLoop - v.sample.startLoop) * 2 ^ 32 →
      (v.sample.start ≤ (v.update).phase.getIntegerPart
        ∧ (v.update).phase.getIntegerPart < v.sample.endLoop)
      ∨ (v.update).volEnv.isFinished = true := by
  intro v hm hr hss hsl he hraw hlo hhi hd
  unfold Voice.update
  by_cases hfin : v.volEnv.isFinished
  · rw [if_pos hfin]
    exact Or.inr hfin
  · rw [if_neg hfin]
    left
    simp only [hm, hr]
    simp only [FixedPoint.getIntegerPart] at hlo hhi
    set P := v.phase.raw with hP
    set D := v.deltaPhase.raw with hD
    set S := v.sample.startLoop with hS
    set E := v.sample.endLoop with hE
    -- the wrap test `phase1.integer > endLoop - 1` (u32 arithmetic)
    by_cases hc : (v.phase.add v.deltaPhase).getIntegerPart > (E + 2 ^ 32 - 1) % 2 ^ 32
    · rw [if_pos hc, if_neg Bool.false_ne_true, updateTail_phase]
      simp only [FixedPoint.getIntegerPart, FixedPoint.add, FixedPoint.sub,
        FixedPoint.ofNat] at hc ⊢
      omega
    · rw [if_neg hc, updateTail_phase]
      simp only [FixedPoint.getIntegerPart, FixedPoint.add] at hc ⊢
      omega

/-- Voice used by the C1 witness: a Looped voice with loop `[0, 2)` and a
one-frame phase increment. -/
noncomputable def loopVoice : Voice :=
  { renderVoice with
    sample := ⟨[5, 7, 9], 60, .Looped, 0, 2, 0, 2⟩
    phase := ⟨0⟩
    deltaPhase := ⟨2 ^ 32⟩ }

/-- Witness for C1 at `loopVoice`. -/
theorem C1_looped_phase_invariant_witness :
    (loopVoice.sample.mode = .Looped
      ∧ loopVoice.released = false
      ∧ loopVoice.sample.start ≤ loopVoice.sample.startLoop
      ∧ loopVoice.sample.startLoop < loopVoice.sample.endLoop
      ∧ loopVoice.sample.endLoop ≤ 2 ^ 31
      ∧ loopVoice.phase.raw < 2 ^ 64
      ∧ loopVoice.sample.start ≤ loopVoice.phase.getIntegerPart
      ∧ loopVoice.phase.getIntegerPart < loopVoice.sample.endLoop
      ∧ loopVoice.deltaPhase.raw
          < (loopVoice.sample.endLoop - loopVoice.sample.startLoop) * 2 ^ 32)
    ∧ ((loopVoice.sample.start ≤ (loopVoice.update).phase.getIntegerPart
        ∧ (loopVoice.update).phase.getIntegerPart < loopVoice.sample.endLoop)
      ∨ (loopVoice.update).volEnv.isFinished = true) :=
  ⟨⟨rfl, rfl, by decide, by decide, by decide, by decide, by decide, by decide, by decide⟩,
    C1_looped_phase_invariant loopVoice rfl rfl (by decide) (by decide) (by decide)
      (by decide) (by decide) (by decide) (by decide)⟩

/-- Voice refuting C1 as stated: loop `[0, 1)` of length one frame, phase
increment of two frames. -/
noncomputable def loopCexVoice : Voice :=
  { renderVoice with
    sample := ⟨[5, 7, 9], 60, .Looped, 0, 1, 0, 1⟩
    phase := ⟨0⟩
    deltaPhase := ⟨2 * 2 ^ 32⟩ }

/-- Counterexample to C1 as stated: `loopCexVoice` is Looped, not
released, and starts with `phase.integer ∈ [start, endLoop)`; after one
`update()` its `phase.integer` is 1 ≥ endLoop = 1 (the single loop-length
subtraction cannot catch a two-frame increment) while the volume envelope
is not finished. -/
theorem C1_looped_phase_invariant_counterexample :
    loopCexVoice.sample.mode = .Looped
    ∧ loopCexVoice.released = false
    ∧ loopCexVoice.sample.start ≤ loopCexVoice.phase.getIntegerPart
    ∧ loopCexVoice.phase.getIntegerPart < loopCexVoice.sample.endLoop
    ∧ ¬((loopCexVoice.update).phase.getIntegerPart < loopCexVoice.sample.endLoop)
    ∧ (loopCexVoice.update).volEnv.isFinished = false :=
  ⟨rfl, rfl, by decide, by decide, by decide, by decide⟩

/-! ## Claim theorems: constructor state -/

theorem updateSFController_fst_phase (v : Voice) (c : SFGeneralController) (value : ℤ) :
    ((v.updateSFController c value).1).phase = v.phase :=
  updateControllerAux_fst_phase _ _ _ _ _

theorem updateSFController_fst_volEnvSec (v : Voice) (c : SFGeneralController) (value : ℤ) :
    ((v.updateSFController c value).1).volEnv.sec = v.volEnv.sec :=
  updateControllerAux_fst_volEnvSec _ _ _ _ _

/-- The constructed voice's phase is the *bank* sample start
(`phase_(sample->start)`, `voice.cpp` line 23), untouched by the seed
controller pushes and the `INIT_GENERATORS` loop. -/
theorem mkVoice_phase (noteID : ℕ) (outputRate : ℝ) (sample : Sample)
    (generators : GeneratorSet) (modparams : List SfModList) (key velocity : ℕ) :
    (mkVoice noteID outputRate sample generators modparams key velocity).phase
      = FixedPoint.ofNat sample.start := by
  unfold mkVoice
  dsimp only
  rw [foldl_updateModulatedParams_phase, updateSFController_fst_phase,
    updateSFController_fst_phase, updateSFController_fst_phase]

/-- The constructed voice's volume envelope is still in its initial
`Delay` section: `setParameter` calls during construction do not change
the section. -/
theorem mkVoice_volEnvSec (noteID : ℕ) (outputRate : ℝ) (sample : Sample)
    (generators : GeneratorSet) (modparams : List SfModList) (key velocity : ℕ) :
    (mkVoice noteID outputRate sample generators modparams key velocity).volEnv.sec
      = EnvSection.Delay := by
  unfold mkVoice
  dsimp only
  rw [foldl_updateModulatedParams_volEnvSec, updateSFController_fst_volEnvSec,
    updateSFController_fst_volEnvSec, updateSFController_fst_volEnvSec]
  rfl

/-- C3 (amended): immediately after construction and before any
`update()`, the phase's integer part equals the *bank-provided* sample
start address (`sample->start`, before the `startAddrsOffset` /
`startAddrsCoarseOffset` generators are applied — the generators enter
`sample_.start`, not the phase), and `isSounding()` is true.  The claim's
offset-adjusted start is refuted by the counterexample below. -/
theorem C3_ctor_phase_and_sounding :
    ∀ (noteID : ℕ) (outputRate : ℝ) (sample : Sample) (generators : GeneratorSet)
      (modparams : List SfModList) (key velocity : ℕ),
      sample.start < 2 ^ 32 →
      (mkVoice noteID outputRate sample generators modparams key velocity).phase.getIntegerPart
        = sample.start
      ∧ (mkVoice noteID outputRate sample generators modparams key velocity).isSounding
        = true := by
  intro n o s g mp k vel h
  constructor
  · rw [mkVoice_phase]
    simp only [FixedPoint.ofNat, FixedPoint.getIntegerPart]
    omega
  · simp only [Voice.isSounding, Envelope.isFinished, mkVoice_volEnvSec]
    rfl

/-- Bank sample used by the C3 witness and counterexample. -/
noncomputable def ctorSample : Sample := ⟨[5, 7, 9], 0, 2, 0, 2, 48000, 60, 0⟩

/-- Generator set with `startAddrsOffset = 1` and every other generator
at 0, used by the C3 counterexample. -/
noncomputable def ctorGens : GeneratorSet :=
  ⟨fun g => if g = .startAddrsOffset then 1 else 0⟩

/-- Witness for C3 (amended) at a concrete construction. -/
theorem C3_ctor_phase_and_sounding_witness :
    ctorSample.start < 2 ^ 32
    ∧ ((mkVoice 0 48000 ctorSample ctorGens [] 60 100).phase.getIntegerPart = ctorSample.start
      ∧ (mkVoice 0 48000 ctorSample ctorGens [] 60 100).isSounding = true) :=
  ⟨by decide,
    C3_ctor_phase_and_sounding 0 48000 ctorSample ctorGens [] 60 100 (by decide)⟩

/-- Counterexample to C3 as stated: with `startAddrsOffset = 1` the
voice's sample start address (bank start 0 plus offset) is 1, but the
phase is initialized from the bank start, so its integer part is 0 — the
two differ even though the voice is sounding. -/
theorem C3_ctor_phase_and_sounding_counterexample :
    (mkVoice 0 48000 ctorSample ctorGens [] 60 100).sample.start = 1
    ∧ (mkVoice 0 48000 ctorSample ctorGens [] 60 100).phase.getIntegerPart = 0
    ∧ (mkVoice 0 48000 ctorSample ctorGens [] 60 100).isSounding = true
    ∧ (mkVoice 0 48000 ctorSample ctorGens [] 60 100).phase.getIntegerPart
        ≠ (mkVoice 0 48000 ctorSample ctorGens [] 60 100).sample.start := by
  refine ⟨by decide, by decide, ?_, by decide⟩
  simp only [Voice.isSounding, Envelope.isFinished, mkVoice_volEnvSec]
  rfl

/-! ## Claim theorems: controller updates and recomputation -/

theorem Modulator.updateSF_param (m : Modulator) (c : SFGeneralController) (value : ℤ) :
    (m.updateSF c value).param = m.param := by
  unfold Modulator.updateSF Modulator.calculateValue
  dsimp only
  split <;> split <;> rfl

theorem Modulator.updateMIDI_param (m : Modulator) (cc : ℕ) (value : ℤ) :
    (m.updateMIDI cc value).param = m.param := by
  unfold Modulator.updateMIDI Modulator.calculateValue
  dsimp only
  split <;> split <;> rfl

theorem get?_eq_of_drop {α : Type} :
    ∀ (l : List α) (i : ℕ) (m : α) (rest : List α),
      l.drop i = m :: rest → l.get? i = some m := by
  intro l
  induction l with
  | nil => intro i m rest h; simp at h
  | cons a t ih =>
    intro i m rest h
    cases i with
    | zero => simp at h ⊢; exact h.1
    | succ i =>
      rw [List.drop_succ_cons] at h
      simpa using ih i m rest h

/-- The trace of `updateModulatedParams` calls made by the controller-update
loop equals the destinations of the matching modulators in the suffix of
the modulator list that the loop still has to visit — independent of the
delivered value and of whether any accumulated modulation changes. -/
theorem updateControllerAux_trace (hit : Modulator → Bool) (upd : Modulator → Modulator)
    (hud : ∀ m, (upd m).param = m.param) :
    ∀ (rest : List Modulator) (i : ℕ) (v : Voice),
      v.modulators.drop i = rest →
      (Voice.updateControllerAux hit upd rest.length i v).2
        = (rest.filter hit).map Modulator.getDestination := by
  intro rest
  induction rest with
  | nil => intro i v _; rfl
  | cons m rest ih =>
    intro i v h
    have hget : v.modulators.get? i = some m := get?_eq_of_drop _ _ _ _ h
    have hdrop : v.modulators.drop (i + 1) = rest := by
      rw [← List.tail_drop, h, List.tail_cons]
    simp only [List.length_cons]
    rw [Voice.updateControllerAux, hget]
    dsimp only
    cases hh : hit m with
    | false =>
      rw [if_neg Bool.false_ne_true, List.filter_cons_of_neg (by simp [hh])]
      exact ih (i + 1) v hdrop
    | true =>
      rw [if_pos rfl, List.filter_cons_of_pos hh]
      dsimp only [List.map_cons]
      have hdest : (upd m).getDestination = m.getDestination := by
        unfold Modulator.getDestination
        rw [hud]
      rw [hdest]
      have hdrop2 :
          (Voice.updateModulatedParams
              { v with modulators := v.modulators.set i (upd m) }
              m.getDestination).modulators.drop (i + 1) = rest := by
        rw [updateModulatedParams_modulators]
        dsimp only
        rw [List.drop_set_of_lt _ _ (Nat.lt_succ_self i), hdrop]
      rw [ih (i + 1) _ hdrop2]

/-- C5 (amended): `updateSFController(c, v)` and
`updateMIDIController(cc, v)` call `updateModulatedParams(mod.destination)`
once for *every* modulator whose source matches the controller — the
recomputation happens regardless of whether the accumulated modulation of
the destination changes (there is no change check in the loop,
`voice.cpp` lines 147–163); in particular it is not limited to
destinations whose modulation actually changes. -/
theorem C5_controller_recompute_per_matching_modulator :
    ∀ (v : Voice) (c : SFGeneralController) (cc : ℕ) (value : ℤ),
      (v.updateSFController c value).2
        = (v.modulators.filter (fun m => m.isSourceSFController c)).map
            Modulator.getDestination
      ∧ (v.updateMIDIController cc value).2
        = (v.modulators.filter (fun m => m.isSourceMIDIController cc)).map
            Modulator.getDestination := by
  intro v c cc value
  constructor
  · exact updateControllerAux_trace _ _ (fun m => Modulator.updateSF_param m c value)
      v.modulators 0 v rfl
  · exact updateControllerAux_trace _ _ (fun m => Modulator.updateMIDI_param m cc value)
      v.modulators 0 v rfl

/-- A modulator whose source operator is the general controller
`noteOnVelocity`, routed to `initialAttenuation` (amount-source matched by
no controller), used by the C5 counterexample. -/
noncomputable def ctrlMod : Modulator :=
  Modulator.init
    { sfModSrcOper := ⟨.general .noteOnVelocity, false, false, .linear⟩
      sfModAmtSrcOper := ⟨.general .noController, false, false, .linear⟩
      sfModDestOper := .initialAttenuation
      modAmount := 100
      transformAbs := false }

/-- Voice with the single modulator `ctrlMod`, used by the C5
counterexample. -/
noncomputable def ctrlVoice : Voice :=
  { renderVoice with modulators := [ctrlMod] }

/-- Counterexample to C5 as stated: after `updateSFController(noteOnVelocity,
100)`, delivering the *same* value 100 again recomputes the destination
`initialAttenuation` (the second call's `updateModulatedParams` trace is
`[initialAttenuation]`, not empty) even though the accumulated modulation
of that destination is unchanged by the second call. -/
theorem C5_controller_recompute_counterexample :
    ((ctrlVoice.updateSFController .noteOnVelocity 100).1.updateSFController
        .noteOnVelocity 100).2 = [.initialAttenuation]
    ∧ ((ctrlVoice.updateSFController .noteOnVelocity 100).1.updateSFController
          .noteOnVelocity 100).1.modulations .initialAttenuation
        = (ctrlVoice.updateSFController .noteOnVelocity 100).1.modulations
            .initialAttenuation := by
  constructor
  · rfl
  · rfl

end Primasynth
